import Mathlib

/-!
Verification development for the realtime connection manager of the
Changex-neurix web application (source: src/src/hooks/usewebsocket.js).

The manager is a React hook around a socket.io transport.  We embed it as a
single-threaded event system: the mutable hook state (refs and useState
cells) becomes an explicit record `MState`, every public operation
(connect, disconnect, emit, on, off) and every transport callback
(connect, disconnect, connect_error, reconnect, reconnect_attempt,
reconnect_failed, pong, acknowledgments, message delivery) becomes a
function `MState -> ... -> MState`, and a run of the system is a fold of a
`step` function over a list of external events.  State reads are modelled
as reads of the current state (the idealized single-threaded semantics of
the handlers); `console.log` calls are not modelled; `showNotification`
and `trackEvent` are modelled as append-only output traces.  Wall-clock
time (`Date.now()`) is passed as an explicit `now` argument, and
`crypto.randomUUID()` is modelled as an external oracle `uuids : Nat -> Nat`
(an arbitrary stream of abstract tokens) consumed at index `uuidIdx`.
-/

namespace ChangexWS

/-- Consumer-registered handlers.  In the source a handler is a JS function;
`on` wraps the given handler in a fresh logging closure
(`handlerWithLogging`, usewebsocket.js lines 369-372).  We model handler
identity: `user n` is a caller-supplied function, `wrapped uid inner` is a
fresh wrapper closure (fresh `uid`) around `inner`.  Two distinct wrapper
closures are never equal, and a wrapper is never equal to a user handler,
exactly as for JS function objects. -/
inductive Handler where
  | user (n : Nat)
  | wrapped (uid : Nat) (inner : Handler)
deriving DecidableEq, BEq, Repr

/-- A record of one message handed to the transport by `emit`
(usewebsocket.js lines 345-357): the payload (abstract, modelled as a `Nat`)
extended with `timestamp: Date.now()` and `requestId: crypto.randomUUID()`,
together with the acknowledgment closure (it captures the optional user
callback, modelled by `ackCb`). -/
structure SentMsg where
  event : String
  payload : Nat
  timestamp : Nat
  requestId : Nat
  ackCb : Option Nat
deriving DecidableEq, Repr

/-- One entry of the outbound queue `pendingEmits`
(usewebsocket.js line 330): the (category, payload, optional callback)
triple stored while the manager is not connected. -/
structure PendingEmit where
  event : String
  data : Nat
  callback : Option Nat
deriving DecidableEq, Repr

/-- Results passed to user callbacks by the manager. -/
inductive CbResult where
  | queuedNotConnected
  | errorRes (msg : String)
  | ackRes (resp : Nat)
deriving DecidableEq, Repr

/-- Whether a callback result carries `queued: true`.  The source object is
literally `queued: true` together with an error string
(usewebsocket.js line 333). -/
def CbResult.queuedFlag : CbResult → Bool
  | .queuedNotConnected => true
  | _ => false

/-- A transport handle (a socket.io client socket).  `sid` is the identity
of the handle, `connected` its transport-level connected flag
(`socket.connected`), `tornDown` records that `socket.disconnect()` has
been called on it, `sendError` is `some msg` when the handle throws on
send (models a throwing `socket.emit`), `listeners` are the consumer
handlers attached via `socket.on`, and `sent` the messages handed to
`socket.emit`. -/
structure Socket where
  sid : Nat
  connected : Bool
  tornDown : Bool
  sendError : Option String
  listeners : List (String × Handler)
  sent : List SentMsg
deriving DecidableEq, Repr

/-- The full state of the hook: the refs (`socketRef`,
`pingIntervalRef`, `reconnectTimeoutRef`), the useState cells
(usewebsocket.js lines 69-76), the auth inputs, the randomness oracle,
and the output traces.  `deadSockets` keeps the handles that were torn
down, so that the one-live-handle invariant is statable. -/
structure MState where
  user : Bool
  token : Bool
  socket : Option Socket
  deadSockets : List Socket
  isConnected : Bool
  isConnecting : Bool
  reconnectAttempts : Nat
  connectionError : Option String
  lastActivity : Option Nat
  eventListeners : List (String × List Handler)
  pendingEmits : List PendingEmit
  pingIntervalActive : Bool
  reconnectTimeoutActive : Bool
  nextSid : Nat
  nextWrapId : Nat
  uuidIdx : Nat
  uuids : Nat → Nat
  cbTrace : List (Nat × CbResult)
  handlerCalls : List (Nat × String × Nat)
  notifications : List (String × String)
  telemetry : List String

/-- The configured maximum number of transport reconnection attempts,
`reconnectionAttempts: 10` in the socket.io config
(usewebsocket.js line 82). -/
def reconnectionAttemptsMax : Nat := 10

/-- Initial hook state: no identity, no socket, everything empty.  The
uuid oracle is arbitrary; runs may replace it. -/
def initState : MState :=
  { user := false, token := false, socket := none, deadSockets := [],
    isConnected := false, isConnecting := false, reconnectAttempts := 0,
    connectionError := none, lastActivity := none, eventListeners := [],
    pendingEmits := [], pingIntervalActive := false, reconnectTimeoutActive := false,
    nextSid := 0, nextWrapId := 0, uuidIdx := 0, uuids := fun i => i,
    cbTrace := [], handlerCalls := [], notifications := [], telemetry := [] }

/-- The value of `socketRef.current?.connected` (usewebsocket.js line 128). -/
def socketConnected (s : MState) : Bool :=
  match s.socket with
  | some k => k.connected
  | none => false

/-- Tearing a handle down: `socket.disconnect()`.  The handle is no longer
connected and is marked torn down. -/
def teardownSocket (k : Socket) : Socket :=
  { k with connected := false, tornDown := true }

/-- Re-attachment of every registered consumer handler onto a freshly
created socket (usewebsocket.js lines 254-258: the nested forEach over
`eventListeners`). -/
def attachAll : List (String × List Handler) → List (String × Handler)
  | [] => []
  | (e, hs) :: rest => hs.map (fun h => (e, h)) ++ attachAll rest

/-- The socket produced by `createSocket` (usewebsocket.js lines 105-119)
followed by the listener registration in `connect`: a fresh handle
(fresh `sid`), not yet connected, with the registry handlers attached and
nothing sent. -/
def freshSocket (s : MState) : Socket :=
  { sid := s.nextSid, connected := false, tornDown := false,
    sendError := none, listeners := attachAll s.eventListeners, sent := [] }

/-- Model of `connect` (usewebsocket.js lines 122-276).  Guards in source
order: no user or token returns after a log (line 123); an already
connected socket returns (line 128); `isConnecting` returns (line 133).
Otherwise it sets `isConnecting`, clears the error, synchronously tears
down and nulls any existing handle (lines 143-146), installs a fresh
handle with re-attached consumer listeners (lines 149-258), calls
`socket.connect()` (the transport later fires the connect event,
modelled separately by `transportConnect`) and starts the ping interval
(line 264).  The six lifecycle listeners registered on the socket are
modelled as the transport-event functions below. -/
def connectFn (s : MState) : MState :=
  if !(s.user && s.token) then s
  else if socketConnected s then s
  else if s.isConnecting then s
  else
    match s.socket with
    | some k =>
      { s with isConnecting := true, connectionError := none,
               socket := some (freshSocket s),
               deadSockets := s.deadSockets ++ [teardownSocket k],
               nextSid := s.nextSid + 1, pingIntervalActive := true }
    | none =>
      { s with isConnecting := true, connectionError := none,
               socket := some (freshSocket s),
               nextSid := s.nextSid + 1, pingIntervalActive := true }

/-- Model of `disconnect` (usewebsocket.js lines 279-301): tears down and
nulls the handle if present, resets the three flags, and clears the ping
interval and the reconnect timeout. -/
def disconnectFn (s : MState) : MState :=
  match s.socket with
  | some k =>
    { s with socket := none, deadSockets := s.deadSockets ++ [teardownSocket k],
             isConnected := false, isConnecting := false, connectionError := none,
             pingIntervalActive := false, reconnectTimeoutActive := false }
  | none =>
    { s with isConnected := false, isConnecting := false, connectionError := none,
             pingIntervalActive := false, reconnectTimeoutActive := false }

/-- The state after the not-connected branch of `emit` has queued the
message and invoked the callback (usewebsocket.js lines 330-334):
the triple is appended to `pendingEmits` and, when a callback is present,
it is called with the queued result. -/
def queuedState (s : MState) (ev : String) (d : Nat) (cb : Option Nat) : MState :=
  match cb with
  | some c => { s with pendingEmits := s.pendingEmits ++ [⟨ev, d, cb⟩],
                       cbTrace := s.cbTrace ++ [(c, CbResult.queuedNotConnected)] }
  | none => { s with pendingEmits := s.pendingEmits ++ [⟨ev, d, cb⟩] }

/-- The not-connected branch of `emit` (usewebsocket.js lines 328-342):
queue, invoke callback with the queued result, then
`if (!isConnecting) connect()`. -/
def emitQueue (s : MState) (ev : String) (d : Nat) (cb : Option Nat) : MState :=
  if !s.isConnecting then connectFn (queuedState s ev d cb)
  else queuedState s ev d cb

/-- The connected branch of `emit` (usewebsocket.js lines 344-364): build
`emitData` by extending the payload with `timestamp: Date.now()` and
`requestId: crypto.randomUUID()` (consuming one oracle value), then hand
it to `socket.emit` together with the acknowledgment closure.  If the
transport throws, the catch block invokes the callback with an error
result; the uuid was already consumed when building `emitData`. -/
def emitSend (s : MState) (sock : Socket) (ev : String) (d : Nat)
    (cb : Option Nat) (now : Nat) : MState :=
  match sock.sendError with
  | some msg =>
    match cb with
    | some c => { s with uuidIdx := s.uuidIdx + 1,
                         cbTrace := s.cbTrace ++ [(c, CbResult.errorRes msg)] }
    | none => { s with uuidIdx := s.uuidIdx + 1 }
  | none =>
    { s with uuidIdx := s.uuidIdx + 1,
             socket := some { sock with
               sent := sock.sent ++ [⟨ev, d, now, s.uuids s.uuidIdx, cb⟩] } }

/-- Model of `emit` (usewebsocket.js lines 327-365).  The guard is
`!socketRef.current || !isConnected`. -/
def emitFn (s : MState) (ev : String) (d : Nat) (cb : Option Nat) (now : Nat) : MState :=
  match s.socket with
  | none => emitQueue s ev d cb
  | some sock =>
    if !s.isConnected then emitQueue s ev d cb
    else emitSend s sock ev d cb now

/-- Model of `processPendingEmits` (usewebsocket.js lines 317-324): when
the queue is non-empty and the socket is connected, re-emit each queued
triple via `emit` in queue order, then set the queue to the empty list. -/
def processPendingEmits (s : MState) (now : Nat) : MState :=
  if !s.pendingEmits.isEmpty && socketConnected s then
    { (s.pendingEmits.foldl
        (fun acc pe => emitFn acc pe.event pe.data pe.callback now) s) with
      pendingEmits := [] }
  else s

/-- The CONNECT event handler (usewebsocket.js lines 157-173): sets the
connected flags, resets the attempt counter, clears the error, records
the activity timestamp, tracks and notifies, then flushes the queue. -/
def handleConnect (s : MState) (now : Nat) : MState :=
  processPendingEmits
    { s with isConnected := true, isConnecting := false, reconnectAttempts := 0,
             connectionError := none, lastActivity := some now,
             telemetry := s.telemetry ++ ["websocket_connected"],
             notifications := s.notifications ++
               [("success", "Connected to Changex Neurix servers")] }
    now

/-- Delivery of the transport-level connect event: the socket reports
itself connected and the CONNECT handler runs. -/
def transportConnect (s : MState) (now : Nat) : MState :=
  match s.socket with
  | none => s
  | some sock => handleConnect { s with socket := some { sock with connected := true } } now

/-- The DISCONNECT event handler (usewebsocket.js lines 175-193): clears
the connected flags and the activity timestamp; on a server-initiated
disconnect it notifies and schedules a delayed reconnect (modelled by
the `reconnectTimeoutActive` flag; its firing is `reconnectTimerFire`). -/
def handleDisconnect (s : MState) (reason : String) : MState :=
  if reason = "io server disconnect" then
    { s with isConnected := false, isConnecting := false, lastActivity := none,
             notifications := s.notifications ++ [("warning", "Disconnected from server")],
             reconnectTimeoutActive := true }
  else
    { s with isConnected := false, isConnecting := false, lastActivity := none }

/-- Delivery of the transport-level disconnect event: the socket reports
itself no longer connected and the DISCONNECT handler runs. -/
def transportDisconnect (s : MState) (reason : String) : MState :=
  match s.socket with
  | none => s
  | some sock =>
    handleDisconnect { s with socket := some { sock with connected := false } } reason

/-- The CONNECT_ERROR event handler (usewebsocket.js lines 195-214):
records the error, clears `isConnecting`, increments the attempt counter
and notifies (warning up to the third attempt, error afterwards). -/
def handleConnectError (s : MState) (msg : String) : MState :=
  { s with connectionError := some msg, isConnecting := false,
           reconnectAttempts := s.reconnectAttempts + 1,
           notifications := s.notifications ++
             [if s.reconnectAttempts + 1 ≤ 3
              then ("warning", "Connection attempt " ++ toString (s.reconnectAttempts + 1)
                      ++ " failed. Retrying...")
              else ("error", "Connection failed. Please check your network.")] }

/-- The RECONNECT event handler (usewebsocket.js lines 216-228): sets
`isConnected`, resets the attempt counter, clears the error, notifies
and tracks.  It does not touch `lastActivity`. -/
def handleReconnect (s : MState) (n : Nat) : MState :=
  { s with isConnected := true, reconnectAttempts := 0, connectionError := none,
           notifications := s.notifications ++ [("success", "Reconnected successfully")],
           telemetry := s.telemetry ++ ["websocket_reconnected:" ++ toString n] }

/-- Delivery of the transport-level reconnect event. -/
def transportReconnect (s : MState) (n : Nat) : MState :=
  match s.socket with
  | none => s
  | some sock => handleReconnect { s with socket := some { sock with connected := true } } n

/-- The RECONNECT_ATTEMPT event handler (usewebsocket.js lines 230-233). -/
def handleReconnectAttempt (s : MState) (n : Nat) : MState :=
  { s with reconnectAttempts := n }

/-- The RECONNECT_FAILED event handler (usewebsocket.js lines 235-247):
it only shows a notification (with a manual reload action) and tracks a
telemetry event.  It performs no state transition: there is no Failed
state anywhere in the hook. -/
def handleReconnectFailed (s : MState) : MState :=
  { s with notifications := s.notifications ++
             [("error", "Failed to reconnect. Please refresh the page.")],
           telemetry := s.telemetry ++ ["websocket_reconnect_failed"] }

/-- The PONG event handler (usewebsocket.js lines 249-251). -/
def handlePong (s : MState) (now : Nat) : MState :=
  { s with lastActivity := some now }

/-- List indexing used to model which acknowledgment closure the server
invokes (the i-th message handed to `socket.emit`). -/
def listNth {α : Type} : List α → Nat → Option α
  | [], _ => none
  | a :: _, 0 => some a
  | _ :: l, n + 1 => listNth l n

/-- The server acknowledges the i-th message sent on the current socket:
the acknowledgment closure (usewebsocket.js lines 351-357) updates
`lastActivity` and, when the user supplied a callback, invokes it with
the response. -/
def serverAck (s : MState) (i : Nat) (resp : Nat) (now : Nat) : MState :=
  match s.socket with
  | none => s
  | some sock =>
    match listNth sock.sent i with
    | none => s
    | some m =>
      match m.ackCb with
      | some c => { s with lastActivity := some now,
                           cbTrace := s.cbTrace ++ [(c, CbResult.ackRes resp)] }
      | none => { s with lastActivity := some now }

/-- Model of `on` (usewebsocket.js lines 368-391): wrap the handler in a
fresh logging closure, add the wrapper to the registry set for the
category, and attach the wrapper to the live socket if one exists.  The
source also returns an unsubscribe closure that calls `off` with the
wrapper (not modelled as data; `offFn` applied to the wrapper is that
capability). -/
def registryAdd (reg : List (String × List Handler)) (ev : String) (h : Handler) :
    List (String × List Handler) :=
  match reg with
  | [] => [(ev, [h])]
  | (e, hs) :: rest =>
    if e = ev then (e, if hs.contains h then hs else hs ++ [h]) :: rest
    else (e, hs) :: registryAdd rest ev h

/-- Set-semantics removal mirroring `newMap.get(event).delete(handler)`
followed by dropping the entry when its set becomes empty
(usewebsocket.js lines 397-402). -/
def registryRemove (reg : List (String × List Handler)) (ev : String) (h : Handler) :
    List (String × List Handler) :=
  match reg with
  | [] => []
  | (e, hs) :: rest =>
    if e = ev then
      if (hs.filter (fun x => !(x == h))).isEmpty then rest
      else (e, hs.filter (fun x => !(x == h))) :: rest
    else (e, hs) :: registryRemove rest ev h

/-- Model of `on` (usewebsocket.js lines 368-391). -/
def onFn (s : MState) (ev : String) (h : Handler) : MState :=
  match s.socket with
  | some sock =>
    { s with nextWrapId := s.nextWrapId + 1,
             eventListeners := registryAdd s.eventListeners ev (.wrapped s.nextWrapId h),
             socket := some { sock with
               listeners := sock.listeners ++ [(ev, .wrapped s.nextWrapId h)] } }
  | none =>
    { s with nextWrapId := s.nextWrapId + 1,
             eventListeners := registryAdd s.eventListeners ev (.wrapped s.nextWrapId h) }

/-- Model of `off` (usewebsocket.js lines 394-409): remove the given
handler value from the registry set and detach it from the live socket.
Note the source removes exactly the value it is handed. -/
def offFn (s : MState) (ev : String) (h : Handler) : MState :=
  match s.socket with
  | some sock =>
    { s with eventListeners := registryRemove s.eventListeners ev h,
             socket := some { sock with
               listeners := sock.listeners.filter (fun p => !(p.1 == ev && p.2 == h)) } }
  | none =>
    { s with eventListeners := registryRemove s.eventListeners ev h }

/-- Invoking a handler: a wrapper logs and calls its inner handler
(usewebsocket.js lines 369-372), so the observable call is to the
underlying user handler. -/
def runHandler : Handler → String → Nat → List (Nat × String × Nat)
  | .user n, ev, arg => [(n, ev, arg)]
  | .wrapped _ inner, ev, arg => runHandler inner ev arg

/-- The user-handler calls fired when the transport delivers a message on
a category: every listener attached for that category runs, in
attachment order. -/
def firedCalls : List (String × Handler) → String → Nat → List (Nat × String × Nat)
  | [], _, _ => []
  | (e, h) :: rest, ev, arg =>
    (if e = ev then runHandler h ev arg else []) ++ firedCalls rest ev arg

/-- The transport delivers an inbound message on a category: every
handler attached to the connected socket for that category is invoked. -/
def deliverFn (s : MState) (ev : String) (arg : Nat) : MState :=
  match s.socket with
  | none => s
  | some sock =>
    if sock.connected then
      { s with handlerCalls := s.handlerCalls ++ firedCalls sock.listeners ev arg }
    else s

/-- One firing of the connection-health interval (usewebsocket.js lines
453-468): the effect is mounted only while `isConnected` and
`lastActivity` are set; on each tick, if more than 60000 ms have passed
since the last activity, it calls `disconnect()` then `connect()`. -/
def healthTick (s : MState) (now : Nat) : MState :=
  if s.isConnected then
    match s.lastActivity with
    | some t => if 60000 < now - t then connectFn (disconnectFn s) else s
    | none => s
  else s

/-- The visibilitychange handler (usewebsocket.js lines 438-450): when the
page becomes visible and a user is present and the manager is neither
connected nor connecting, call `connect()`. -/
def handleVisibility (s : MState) (visible : Bool) : MState :=
  if visible && s.user && !s.isConnected && !s.isConnecting then connectFn s
  else s

/-- The auto-connect effect (usewebsocket.js lines 425-435): when the
identity changes, connect if user and token are present, otherwise
disconnect. -/
def authChange (s : MState) (u t : Bool) : MState :=
  if u && t then connectFn { s with user := u, token := t }
  else disconnectFn { s with user := u, token := t }

/-- Firing of the delayed reconnect scheduled on a server-initiated
disconnect (usewebsocket.js lines 189-191). -/
def reconnectTimerFire (s : MState) : MState :=
  if s.reconnectTimeoutActive then connectFn { s with reconnectTimeoutActive := false }
  else s

/-- External events driving the manager: public API calls, transport
callbacks, timer firings and environment changes. -/
inductive Event where
  | connectReq
  | disconnectReq
  | emitReq (ev : String) (d : Nat) (cb : Option Nat) (now : Nat)
  | onReq (ev : String) (h : Handler)
  | offReq (ev : String) (h : Handler)
  | sockConnected (now : Nat)
  | sockDisconnected (reason : String)
  | sockConnectError (msg : String)
  | sockReconnect (n : Nat)
  | sockReconnectAttempt (n : Nat)
  | sockReconnectFailed
  | sockPong (now : Nat)
  | ackEv (i : Nat) (resp : Nat) (now : Nat)
  | deliverEv (ev : String) (arg : Nat)
  | healthTickEv (now : Nat)
  | visibilityEv (visible : Bool)
  | authChangeEv (u t : Bool)
  | reconnectTimerEv

/-- The single transition function of the event system. -/
def step (s : MState) : Event → MState
  | .connectReq => connectFn s
  | .disconnectReq => disconnectFn s
  | .emitReq ev d cb now => emitFn s ev d cb now
  | .onReq ev h => onFn s ev h
  | .offReq ev h => offFn s ev h
  | .sockConnected now => transportConnect s now
  | .sockDisconnected reason => transportDisconnect s reason
  | .sockConnectError msg => handleConnectError s msg
  | .sockReconnect n => transportReconnect s n
  | .sockReconnectAttempt n => handleReconnectAttempt s n
  | .sockReconnectFailed => handleReconnectFailed s
  | .sockPong now => handlePong s now
  | .ackEv i resp now => serverAck s i resp now
  | .deliverEv ev arg => deliverFn s ev arg
  | .healthTickEv now => healthTick s now
  | .visibilityEv visible => handleVisibility s visible
  | .authChangeEv u t => authChange s u t
  | .reconnectTimerEv => reconnectTimerFire s

/-- A run of the manager from a state through a list of events. -/
def run (s : MState) (es : List Event) : MState :=
  es.foldl step s

/-- All transport handles ever seen in a state: the current one and the
torn-down ones. -/
def allHandles (s : MState) : List Socket :=
  (match s.socket with | some k => [k] | none => []) ++ s.deadSockets

/-- The number of live (never torn down) transport handles. -/
def liveCount (s : MState) : Nat :=
  (allHandles s).countP (fun k => !k.tornDown)

/-- The event labels and payloads of the messages handed to a socket. -/
def msgLabel (m : SentMsg) : String × Nat := (m.event, m.payload)

/-- The event labels and payloads of queued emits. -/
def peLabel (pe : PendingEmit) : String × Nat := (pe.event, pe.data)

/-- A sequence of emit calls folded through the manager. -/
def enqueueAll (s : MState) (L : List PendingEmit) (now : Nat) : MState :=
  L.foldl (fun acc pe => emitFn acc pe.event pe.data pe.callback now) s

/-- The requestIds of the messages sent on the current socket, in send
order. -/
def sentRequestIds (s : MState) : List Nat :=
  match s.socket with
  | some k => k.sent.map (fun m => m.requestId)
  | none => []

/-! ### Basic field-preservation lemmas -/

theorem connectFn_pendingEmits (s : MState) : (connectFn s).pendingEmits = s.pendingEmits := by
  unfold connectFn
  split_ifs <;> first | rfl | (rcases hs : s.socket with _ | k <;> simp [hs])

theorem connectFn_cbTrace (s : MState) : (connectFn s).cbTrace = s.cbTrace := by
  unfold connectFn
  split_ifs <;> first | rfl | (rcases hs : s.socket with _ | k <;> simp [hs])

theorem connectFn_isConnected (s : MState) : (connectFn s).isConnected = s.isConnected := by
  unfold connectFn
  split_ifs <;> first | rfl | (rcases hs : s.socket with _ | k <;> simp [hs])

theorem connectFn_user (s : MState) : (connectFn s).user = s.user := by
  unfold connectFn
  split_ifs <;> first | rfl | (rcases hs : s.socket with _ | k <;> simp [hs])

theorem queuedState_fields (s : MState) (ev : String) (d : Nat) (cb : Option Nat) :
    (queuedState s ev d cb).pendingEmits = s.pendingEmits ++ [⟨ev, d, cb⟩]
    ∧ (queuedState s ev d cb).isConnecting = s.isConnecting
    ∧ (queuedState s ev d cb).isConnected = s.isConnected
    ∧ (queuedState s ev d cb).socket = s.socket
    ∧ (queuedState s ev d cb).user = s.user
    ∧ (queuedState s ev d cb).token = s.token := by
  cases cb <;> simp [queuedState]

theorem queuedState_cbTrace_some (s : MState) (ev : String) (d c : Nat) :
    (queuedState s ev d (some c)).cbTrace
      = s.cbTrace ++ [(c, CbResult.queuedNotConnected)] := by
  simp [queuedState]

/-- When the manager state says connecting, the not-connected branch of
emit only queues and invokes the callback. -/
theorem emitQueue_already_connecting (s : MState) (ev : String) (d : Nat) (cb : Option Nat)
    (h : s.isConnecting = true) :
    emitQueue s ev d cb = queuedState s ev d cb := by
  simp [emitQueue, h]

/-- When the manager is not connected, emit takes the queueing branch. -/
theorem emitFn_notConnected (s : MState) (ev : String) (d : Nat) (cb : Option Nat) (now : Nat)
    (h : s.isConnected = false) :
    emitFn s ev d cb now = emitQueue s ev d cb := by
  rcases hs : s.socket with _ | sock <;> simp [emitFn, hs, h]

/-- When the manager is connected (guard of usewebsocket.js line 328
fails), emit takes the sending branch. -/
theorem emitFn_connected (s : MState) (sock : Socket) (ev : String) (d : Nat)
    (cb : Option Nat) (now : Nat)
    (h1 : s.socket = some sock) (h2 : s.isConnected = true) :
    emitFn s ev d cb now = emitSend s sock ev d cb now := by
  simp [emitFn, h1, h2]

/-- The sending branch on a healthy transport: the payload is extended
with the timestamp and the next uuid, and handed to the socket. -/
theorem emitSend_ok (s : MState) (sock : Socket) (ev : String) (d : Nat)
    (cb : Option Nat) (now : Nat) (h : sock.sendError = none) :
    emitSend s sock ev d cb now =
      { s with uuidIdx := s.uuidIdx + 1,
               socket := some { sock with
                 sent := sock.sent ++ [⟨ev, d, now, s.uuids s.uuidIdx, cb⟩] } } := by
  simp [emitSend, h]

theorem disconnectFn_isConnected (s : MState) : (disconnectFn s).isConnected = false := by
  rcases hs : s.socket with _ | k <;> simp [disconnectFn, hs]

theorem socketConnected_congr (s1 s2 : MState) (h : s1.socket = s2.socket) :
    socketConnected s1 = socketConnected s2 := by
  simp [socketConnected, h]

/-- When the guards pass, connect leaves the manager in the connecting
state (usewebsocket.js line 138). -/
theorem connectFn_starts (s : MState) (hu : s.user = true) (ht : s.token = true)
    (hsc : socketConnected s = false) (hic : s.isConnecting = false) :
    (connectFn s).isConnecting = true := by
  unfold connectFn
  rcases hs : s.socket with _ | k <;> split_ifs <;> simp_all

/-! ### Concrete states used by witnesses and counterexamples -/

/-- A connected, healthy transport handle. -/
def sockLive : Socket :=
  { sid := 0, connected := true, tornDown := false, sendError := none,
    listeners := [], sent := [] }

/-- A connected transport handle whose send operation throws. -/
def sockBad : Socket :=
  { sid := 0, connected := true, tornDown := false, sendError := some "boom",
    listeners := [], sent := [] }

def s5a : MState :=
  { initState with user := true, token := true, socket := some sockLive, isConnected := true }

def s5b : MState :=
  { initState with user := true, token := true, isConnecting := true }

def s5c : MState :=
  { initState with token := true }

def s8state : MState :=
  { initState with socket := some sockLive, isConnected := true, pingIntervalActive := true }

def s10state : MState :=
  { initState with user := true, token := true, socket := some sockBad, isConnected := true }

def s4state : MState :=
  { initState with user := true, token := true, socket := some sockLive,
                   isConnected := true, lastActivity := some 0 }

def s6state : MState :=
  { initState with user := true, token := true }

/-! ### Claim theorems -/

/-- Claim C5: connect is idempotent.  If the transport handle already
reports itself connected, or a connect is already in progress, connect
returns without changing anything; and when the identity or the token is
missing it returns without creating a transport and without throwing
(the model function is total, and the state is unchanged; the skipped
console.log is not part of the state). -/
theorem connect_idempotent_and_silent (s : MState) :
    (socketConnected s = true → connectFn s = s)
    ∧ (s.isConnecting = true → connectFn s = s)
    ∧ ((s.user = false ∨ s.token = false) → connectFn s = s) := by
  refine ⟨fun h1 => ?_, fun h2 => ?_, fun h3 => ?_⟩
  · unfold connectFn; split_ifs <;> simp_all
  · unfold connectFn; split_ifs <;> simp_all
  · unfold connectFn
    rcases h3 with h3 | h3 <;> simp [h3]

/-- Witness for C5 at three concrete states: already connected, already
connecting, and missing identity. -/
theorem connect_idempotent_witness :
    connectFn s5a = s5a ∧ connectFn s5b = s5b ∧ connectFn s5c = s5c :=
  ⟨(connect_idempotent_and_silent s5a).1 rfl,
   (connect_idempotent_and_silent s5b).2.1 rfl,
   (connect_idempotent_and_silent s5c).2.2 (Or.inl rfl)⟩

/-- Claim C8: disconnect is idempotent and total.  For every state it
tears down the transport when present (recorded in `deadSockets`), nulls
the handle, cancels the ping interval and the reconnect timer, and never
throws (the model function is total); a second consecutive call produces
exactly the state of the first. -/
theorem disconnect_idempotent_total (s : MState) :
    disconnectFn (disconnectFn s) = disconnectFn s
    ∧ (disconnectFn s).socket = none
    ∧ (disconnectFn s).pingIntervalActive = false
    ∧ (disconnectFn s).reconnectTimeoutActive = false
    ∧ (∀ k, s.socket = some k →
        (disconnectFn s).deadSockets = s.deadSockets ++ [teardownSocket k]) := by
  rcases hs : s.socket with _ | k <;> simp [disconnectFn, hs]

/-- Witness for C8 at a concrete connected state. -/
theorem disconnect_idempotent_witness :
    disconnectFn (disconnectFn s8state) = disconnectFn s8state
    ∧ (disconnectFn s8state).deadSockets = s8state.deadSockets ++ [teardownSocket sockLive] :=
  ⟨(disconnect_idempotent_total s8state).1,
   (disconnect_idempotent_total s8state).2.2.2.2 sockLive rfl⟩

/-- Claim C10: transport-level failures during emit are absorbed locally
(usewebsocket.js lines 358-364): when the socket send throws, the catch
block invokes the callback with an error result and the call returns
normally (the model function is total, so no exception crosses the
public surface; `on` and `off` never touch a throwing operation at all). -/
theorem emit_absorbs_transport_error (s : MState) (sock : Socket) (ev : String)
    (d c now : Nat) (msg : String)
    (h1 : s.socket = some sock) (h2 : s.isConnected = true)
    (h3 : sock.sendError = some msg) :
    emitFn s ev d (some c) now =
      { s with uuidIdx := s.uuidIdx + 1,
               cbTrace := s.cbTrace ++ [(c, CbResult.errorRes msg)] } := by
  rw [emitFn_connected s sock ev d (some c) now h1 h2]
  simp [emitSend, h3]

/-- Witness for C10: a concrete emit on a throwing transport yields the
error callback and nothing else. -/
theorem emit_absorbs_witness :
    emitFn s10state "a" 1 (some 9) 5 =
      { s10state with uuidIdx := s10state.uuidIdx + 1,
                      cbTrace := s10state.cbTrace ++ [(9, CbResult.errorRes "boom")] } :=
  emit_absorbs_transport_error s10state sockBad "a" 1 9 5 "boom" rfl rfl rfl

/-- Claim C4: staleness forces exactly one cycle per breach.  When the
manager is connected and more than 60000 ms have passed since the last
activity, the health tick performs disconnect-then-connect; the
resulting state is no longer connected, and on any state that is not
connected a health tick is a no-op, so the cycle is not repeated for the
same breach (the guard re-arms only after a successful connect records
fresh activity). -/
theorem stale_connection_cycled_once (s : MState) (t now m : Nat)
    (h1 : s.isConnected = true) (h2 : s.lastActivity = some t)
    (h3 : 60000 < now - t) :
    healthTick s now = connectFn (disconnectFn s)
    ∧ (healthTick s now).isConnected = false
    ∧ (∀ s2 m2, s2.isConnected = false → healthTick s2 m2 = s2)
    ∧ healthTick (healthTick s now) m = healthTick s now := by
  have hno : ∀ s2 m2, s2.isConnected = false → healthTick s2 m2 = s2 := by
    intro s2 m2 h
    simp [healthTick, h]
  have h4 : healthTick s now = connectFn (disconnectFn s) := by
    simp [healthTick, h1, h2, h3]
  have h5 : (connectFn (disconnectFn s)).isConnected = false := by
    rw [connectFn_isConnected, disconnectFn_isConnected]
  exact ⟨h4, by rw [h4]; exact h5, hno, by rw [h4]; exact hno _ m h5⟩

/-- Witness for C4 at a concrete stale connected state. -/
theorem stale_connection_witness :
    healthTick s4state 100000 = connectFn (disconnectFn s4state)
    ∧ (healthTick s4state 100000).isConnected = false
    ∧ healthTick (healthTick s4state 100000) 130000 = healthTick s4state 100000 :=
  ⟨(stale_connection_cycled_once s4state 0 100000 130000 rfl rfl (by decide)).1,
   (stale_connection_cycled_once s4state 0 100000 130000 rfl rfl (by decide)).2.1,
   (stale_connection_cycled_once s4state 0 100000 130000 rfl rfl (by decide)).2.2.2⟩

/-- Claim C6: an emit while not connected appends the triple to the
outbound queue, immediately invokes the callback with the result whose
queued flag is true, triggers connect as a side effect when no connect
is in progress, and returns without blocking or throwing (the model
function is total). -/
theorem emit_disconnected_queues_and_connects (s : MState) (ev : String) (d c now : Nat)
    (h1 : s.isConnected = false) :
    (emitFn s ev d (some c) now).pendingEmits = s.pendingEmits ++ [⟨ev, d, some c⟩]
    ∧ (emitFn s ev d (some c) now).cbTrace
        = s.cbTrace ++ [(c, CbResult.queuedNotConnected)]
    ∧ CbResult.queuedFlag CbResult.queuedNotConnected = true
    ∧ (s.isConnecting = false → s.user = true → s.token = true →
        socketConnected s = false →
        (emitFn s ev d (some c) now).isConnecting = true) := by
  rw [emitFn_notConnected s ev d (some c) now h1]
  unfold emitQueue
  by_cases hic : s.isConnecting = true
  · simp only [hic, Bool.not_true, Bool.false_eq_true, if_false]
    refine ⟨(queuedState_fields s ev d (some c)).1, queuedState_cbTrace_some s ev d c,
            rfl, fun hf => absurd hf (by simp)⟩
  · have hic' : s.isConnecting = false := by
      cases hb : s.isConnecting
      · rfl
      · exact absurd hb hic
    simp only [hic', Bool.not_false, if_true]
    refine ⟨?_, ?_, rfl, fun _ hu ht hsc => ?_⟩
    · rw [connectFn_pendingEmits, (queuedState_fields s ev d (some c)).1]
    · rw [connectFn_cbTrace, queuedState_cbTrace_some s ev d c]
    · refine connectFn_starts _ ?_ ?_ ?_ ?_
      · rw [(queuedState_fields s ev d (some c)).2.2.2.2.1]; exact hu
      · rw [(queuedState_fields s ev d (some c)).2.2.2.2.2]; exact ht
      · rw [socketConnected_congr _ s (queuedState_fields s ev d (some c)).2.2.2.1]
        exact hsc
      · rw [(queuedState_fields s ev d (some c)).2.1]; exact hic'

/-! ### Outbound queue: order preservation and flush -/

/-- While the manager is not connected and a connect is in flight, a
sequence of emit calls appends its messages to the outbound queue in call
order and changes neither the flags nor the socket. -/
theorem enqueueAll_spec (L : List PendingEmit) :
    ∀ (s : MState) (now : Nat), s.isConnected = false → s.isConnecting = true →
      (enqueueAll s L now).pendingEmits = s.pendingEmits ++ L
      ∧ (enqueueAll s L now).isConnected = false
      ∧ (enqueueAll s L now).isConnecting = true
      ∧ (enqueueAll s L now).socket = s.socket := by
  induction L with
  | nil =>
    intro s now h1 h2
    exact ⟨by simp [enqueueAll], h1, h2, rfl⟩
  | cons pe L ih =>
    intro s now h1 h2
    have hstep : emitFn s pe.event pe.data pe.callback now
        = queuedState s pe.event pe.data pe.callback := by
      rw [emitFn_notConnected _ _ _ _ _ h1, emitQueue_already_connecting _ _ _ _ h2]
    have hq := queuedState_fields s pe.event pe.data pe.callback
    have hrec := ih (queuedState s pe.event pe.data pe.callback) now
      (by rw [hq.2.2.1]; exact h1) (by rw [hq.2.1]; exact h2)
    unfold enqueueAll at hrec ⊢
    simp only [List.foldl_cons, hstep]
    refine ⟨?_, hrec.2.1, hrec.2.2.1, ?_⟩
    · rw [hrec.1, hq.1]
      simp
    · rw [hrec.2.2.2, hq.2.2.2.1]

/-- Flushing a queue over a connected, healthy socket sends every entry
in queue order and touches neither the queue field nor the flags. -/
theorem flushFold_spec (Q : List PendingEmit) :
    ∀ (s : MState) (sock : Socket) (now : Nat),
      s.socket = some sock → s.isConnected = true → sock.sendError = none →
      sock.connected = true →
      ∃ sock2 : Socket,
        (Q.foldl (fun acc pe => emitFn acc pe.event pe.data pe.callback now) s).socket
            = some sock2
        ∧ sock2.sent.map msgLabel = sock.sent.map msgLabel ++ Q.map peLabel
        ∧ sock2.sendError = none
        ∧ sock2.connected = true
        ∧ (Q.foldl (fun acc pe => emitFn acc pe.event pe.data pe.callback now) s).isConnected
            = true
        ∧ (Q.foldl (fun acc pe => emitFn acc pe.event pe.data pe.callback now) s).pendingEmits
            = s.pendingEmits := by
  induction Q with
  | nil =>
    intro s sock now h1 h2 h3 h4
    exact ⟨sock, by simpa using h1, by simp, h3, h4, h2, rfl⟩
  | cons pe Q ih =>
    intro s sock now h1 h2 h3 h4
    have hstep : emitFn s pe.event pe.data pe.callback now =
        { s with uuidIdx := s.uuidIdx + 1,
                 socket := some { sock with
                   sent := sock.sent
                     ++ [⟨pe.event, pe.data, now, s.uuids s.uuidIdx, pe.callback⟩] } } := by
      rw [emitFn_connected s sock _ _ _ now h1 h2, emitSend_ok s sock _ _ _ now h3]
    simp only [List.foldl_cons, hstep]
    obtain ⟨sock2, hA, hB, hC, hD, hE, hF⟩ :=
      ih { s with uuidIdx := s.uuidIdx + 1,
                  socket := some { sock with
                    sent := sock.sent
                      ++ [⟨pe.event, pe.data, now, s.uuids s.uuidIdx, pe.callback⟩] } }
         { sock with sent := sock.sent
             ++ [⟨pe.event, pe.data, now, s.uuids s.uuidIdx, pe.callback⟩] }
         now rfl h2 h3 h4
    refine ⟨sock2, hA, ?_, hC, hD, hE, hF⟩
    rw [hB]
    simp [msgLabel, peLabel]

/-- Model of the flush at CONNECT time: on a connected, healthy socket,
processPendingEmits hands every queued message to the socket in FIFO
order and empties the queue. -/
theorem processPendingEmits_spec (s : MState) (sock : Socket) (now : Nat)
    (h1 : s.socket = some sock) (h2 : s.isConnected = true)
    (h3 : sock.sendError = none) (h4 : sock.connected = true) :
    ∃ sock2 : Socket,
      (processPendingEmits s now).socket = some sock2
      ∧ sock2.sent.map msgLabel
          = sock.sent.map msgLabel ++ s.pendingEmits.map peLabel
      ∧ (processPendingEmits s now).pendingEmits = []
      ∧ (processPendingEmits s now).isConnected = true := by
  rcases hpe : s.pendingEmits with _ | ⟨pe0, rest⟩
  · refine ⟨sock, ?_, ?_, ?_, ?_⟩ <;> simp [processPendingEmits, hpe, h1, h2]
  · have hne : s.pendingEmits.isEmpty = false := by simp [hpe]
    have hsc : socketConnected s = true := by simp [socketConnected, h1, h4]
    obtain ⟨sock2, hA, hB, hC, hD, hE, hF⟩ :=
      flushFold_spec s.pendingEmits s sock now h1 h2 h3 h4
    refine ⟨sock2, ?_, by rw [hpe] at hB; exact hB, ?_, ?_⟩ <;>
      simp [processPendingEmits, hne, hsc, hA, hE]

/-- The transport connect event on a state holding a healthy socket: the
CONNECT handler flushes the whole queue onto the socket in FIFO order. -/
theorem handleConnect_spec (s : MState) (sock : Socket) (now : Nat)
    (h1 : s.socket = some sock) (h3 : sock.sendError = none) :
    ∃ sock2 : Socket,
      (transportConnect s now).socket = some sock2
      ∧ sock2.sent.map msgLabel
          = sock.sent.map msgLabel ++ s.pendingEmits.map peLabel
      ∧ (transportConnect s now).pendingEmits = []
      ∧ (transportConnect s now).isConnected = true := by
  simp only [transportConnect, h1, handleConnect]
  exact processPendingEmits_spec
    { s with socket := some { sock with connected := true },
             isConnected := true, isConnecting := false, reconnectAttempts := 0,
             connectionError := none, lastActivity := some now,
             telemetry := s.telemetry ++ ["websocket_connected"],
             notifications := s.notifications ++
               [("success", "Connected to Changex Neurix servers")] }
    { sock with connected := true } now rfl rfl h3 rfl

/-- Claim C1: messages emitted while the manager is not connected are
appended to the outbound queue in call order, and when the transport
connect event arrives the queue is flushed onto the socket so that every
queued message is handed to the transport exactly once, in the same FIFO
order, and the queue ends empty (no duplication, no loss).  The flush is
a single transition of the event system, so no item can be queued during
it; the final empty queue together with the exact sent list shows that
nothing is dropped or double-sent by the flush. -/
theorem queued_emits_flushed_fifo (s : MState) (sock : Socket) (L : List PendingEmit)
    (now now2 : Nat)
    (h1 : s.isConnected = false) (h2 : s.isConnecting = true)
    (h3 : s.socket = some sock) (h4 : sock.sendError = none)
    (h5 : s.pendingEmits = []) :
    (enqueueAll s L now).pendingEmits = L
    ∧ ∃ sock2 : Socket,
        (transportConnect (enqueueAll s L now) now2).socket = some sock2
        ∧ sock2.sent.map msgLabel = sock.sent.map msgLabel ++ L.map peLabel
        ∧ (transportConnect (enqueueAll s L now) now2).pendingEmits = []
        ∧ (transportConnect (enqueueAll s L now) now2).isConnected = true := by
  obtain ⟨hq, hc, hic, hsk⟩ := enqueueAll_spec L s now h1 h2
  have hq' : (enqueueAll s L now).pendingEmits = L := by
    rw [hq, h5]
    rfl
  have hsk' : (enqueueAll s L now).socket = some sock := by rw [hsk, h3]
  obtain ⟨sock2, hA, hB, hC, hD⟩ :=
    handleConnect_spec (enqueueAll s L now) sock now2 hsk' h4
  exact ⟨hq', sock2, hA, by rw [hB, hq'], hC, hD⟩

/-- A fresh, not yet connected, healthy transport handle. -/
def sockIdle : Socket :=
  { sid := 0, connected := false, tornDown := false, sendError := none,
    listeners := [], sent := [] }

def s1wState : MState :=
  { initState with user := true, token := true, isConnecting := true,
                   socket := some sockIdle }

def l0Queue : List PendingEmit := [⟨"a", 1, none⟩, ⟨"b", 2, some 3⟩]

/-- Witness for C1 at a concrete connecting state and a two-message
queue. -/
theorem queued_emits_witness :
    (enqueueAll s1wState l0Queue 10).pendingEmits = l0Queue
    ∧ (transportConnect (enqueueAll s1wState l0Queue 10) 20).pendingEmits = []
    ∧ (transportConnect (enqueueAll s1wState l0Queue 10) 20).isConnected = true := by
  obtain ⟨hq, sock2, hA, hB, hC, hD⟩ :=
    queued_emits_flushed_fifo s1wState sockIdle l0Queue 10 20 rfl rfl rfl rfl rfl
  exact ⟨hq, hC, hD⟩

/-- Witness for C6 at a concrete idle state with identity present. -/
theorem emit_disconnected_witness :
    (emitFn s6state "a" 1 (some 9) 5).pendingEmits
        = s6state.pendingEmits ++ [⟨"a", 1, some 9⟩]
    ∧ (emitFn s6state "a" 1 (some 9) 5).cbTrace
        = s6state.cbTrace ++ [(9, CbResult.queuedNotConnected)]
    ∧ (emitFn s6state "a" 1 (some 9) 5).isConnecting = true :=
  ⟨(emit_disconnected_queues_and_connects s6state "a" 1 9 5 rfl).1,
   (emit_disconnected_queues_and_connects s6state "a" 1 9 5 rfl).2.1,
   (emit_disconnected_queues_and_connects s6state "a" 1 9 5 rfl).2.2.2 rfl rfl rfl rfl⟩

/-! ### Message envelope, acknowledgments, requestId ordering (C9) -/

theorem listNth_append_length {α : Type} (l : List α) (a : α) (tail : List α) :
    listNth (l ++ a :: tail) l.length = some a := by
  induction l with
  | nil => rfl
  | cons b l ih => simpa [listNth] using ih

/-- Claim C9 (amended): while connected, emit hands the transport exactly
the payload extended with the timestamp `Date.now()` and a requestId
drawn from the random-UUID source at the current index; the
acknowledgment closure passes the server response to the callback and
refreshes the activity timestamp; and consecutive emits consume
consecutive indices of the source, so their requestIds are distinct
whenever the source does not repeat at those indices.  The source is
`crypto.randomUUID()`: the code imposes no ordering on it, so no
monotonicity of requestIds holds (see the counterexample). -/
theorem emit_envelope_and_ack (s : MState) (sock : Socket) (ev : String)
    (d c now resp now2 : Nat)
    (h1 : s.socket = some sock) (h2 : s.isConnected = true)
    (h3 : sock.sendError = none) :
    emitFn s ev d (some c) now =
      { s with uuidIdx := s.uuidIdx + 1,
               socket := some { sock with
                 sent := sock.sent ++ [⟨ev, d, now, s.uuids s.uuidIdx, some c⟩] } }
    ∧ (serverAck (emitFn s ev d (some c) now) sock.sent.length resp now2).cbTrace
        = s.cbTrace ++ [(c, CbResult.ackRes resp)]
    ∧ (serverAck (emitFn s ev d (some c) now) sock.sent.length resp now2).lastActivity
        = some now2
    ∧ (∀ (ev2 : String) (d2 : Nat) (cb2 : Option Nat) (now3 : Nat),
        (emitFn (emitFn s ev d (some c) now) ev2 d2 cb2 now3).socket
          = some { sock with
              sent := sock.sent ++ [⟨ev, d, now, s.uuids s.uuidIdx, some c⟩,
                                    ⟨ev2, d2, now3, s.uuids (s.uuidIdx + 1), cb2⟩] }) := by
  have henv : emitFn s ev d (some c) now =
      { s with uuidIdx := s.uuidIdx + 1,
               socket := some { sock with
                 sent := sock.sent ++ [⟨ev, d, now, s.uuids s.uuidIdx, some c⟩] } } := by
    rw [emitFn_connected s sock ev d (some c) now h1 h2,
        emitSend_ok s sock ev d (some c) now h3]
  refine ⟨henv, ?_, ?_, ?_⟩
  · rw [henv]
    simp [serverAck, listNth_append_length]
  · rw [henv]
    simp [serverAck, listNth_append_length]
  · intro ev2 d2 cb2 now3
    have h1' : (emitFn s ev d (some c) now).socket
        = some { sock with
            sent := sock.sent ++ [⟨ev, d, now, s.uuids s.uuidIdx, some c⟩] } := by
      rw [henv]
    have h2' : (emitFn s ev d (some c) now).isConnected = true := by
      rw [henv]
      exact h2
    have h3' : ({ sock with
        sent := sock.sent ++ [⟨ev, d, now, s.uuids s.uuidIdx, some c⟩] } : Socket).sendError
        = none := h3
    rw [emitFn_connected (emitFn s ev d (some c) now) _ ev2 d2 cb2 now3 h1' h2']
    rw [emitSend_ok _ _ ev2 d2 cb2 now3 h3']
    rw [henv]
    simp

/-- The uuid oracle for the C9 counterexample: the random-UUID source
returns 5 then 4. -/
def s9state : MState :=
  { initState with user := true, token := true, isConnected := true,
                   socket := some sockLive, uuids := fun i => 5 - i }

/-- Claim C9 counterexample: requestIds are not monotonic.  The code
takes the requestId from `crypto.randomUUID()`, which guarantees no
ordering; with a uuid source yielding 5 then 4, two successive emits
while connected send requestIds 5 then 4, and 5 is not below 4, so the
sequence of requestIds is not monotonically increasing as the claim
states. -/
theorem requestIds_not_monotonic :
    sentRequestIds (emitFn (emitFn s9state "a" 0 none 0) "b" 0 none 0) = [5, 4]
    ∧ ¬ 5 < 4 := by decide

/-- Witness for the amended C9 at a concrete connected state. -/
theorem emit_envelope_witness :
    emitFn s9state "a" 1 (some 7) 11 =
      { s9state with uuidIdx := s9state.uuidIdx + 1,
                     socket := some { sockLive with
                       sent := sockLive.sent
                         ++ [⟨"a", 1, 11, s9state.uuids s9state.uuidIdx, some 7⟩] } }
    ∧ (serverAck (emitFn s9state "a" 1 (some 7) 11) sockLive.sent.length 99 12).cbTrace
        = s9state.cbTrace ++ [(7, CbResult.ackRes 99)] := by
  obtain ⟨hA, hB, hC, hD⟩ := emit_envelope_and_ack s9state sockLive "a" 1 7 11 99 12 rfl rfl rfl
  exact ⟨hA, hB⟩

/-! ### Listener removal (C2) -/

/-- The event sequence of the C2 failing input: login, transport connect,
`on` with a user handler, `off` with the same handler, then an inbound
message on that category. -/
def c2Events : List Event :=
  [Event.authChangeEv true true, Event.sockConnected 1,
   Event.onReq "server_message" (Handler.user 7),
   Event.offReq "server_message" (Handler.user 7),
   Event.deliverEv "server_message" 42]

/-- Claim C2 fails on the code (code bug): `on` registers the fresh
logging wrapper (usewebsocket.js lines 369-385), but `off` deletes the
original handler from the registry set and from the socket
(lines 398 and 407) - a value that was never registered, so the deletion
can never succeed and the wrapper stays attached.  Evaluating the model
on the failing input shows handler 7 is still invoked exactly once by a
delivery arriving after `off` returned, where the claim requires zero
invocations. -/
theorem off_leaves_wrapper_attached :
    (run initState c2Events).handlerCalls = [(7, "server_message", 42)] := by decide

/-! ### Retry exhaustion and the visibility trigger (C3) -/

/-- The event sequence reaching retry exhaustion: login (which starts a
connection attempt), a connection error, the transport reporting its
10th reconnection attempt, then reconnect_failed. -/
def c3Events : List Event :=
  [Event.authChangeEv true true, Event.sockConnectError "refused",
   Event.sockReconnectAttempt reconnectionAttemptsMax, Event.sockReconnectFailed]

def c3State : MState := run initState c3Events

/-- Claim C3 counterexample: after the attempt counter reaches the
configured maximum (10) and the transport reports reconnect_failed, a
page-visibility change alone - with no explicit connect call and no
fresh identity - makes the manager start a new automatic connection
attempt: it becomes connecting and creates a fresh transport handle
(nextSid is bumped).  There is also no Failed state anywhere in the
hook: the reconnect_failed handler leaves every state field unchanged. -/
theorem visibility_retries_after_reconnect_failed :
    c3State.reconnectAttempts = reconnectionAttemptsMax
    ∧ c3State.isConnected = false
    ∧ c3State.isConnecting = false
    ∧ (step c3State (Event.visibilityEv true)).isConnecting = true
    ∧ (step c3State (Event.visibilityEv true)).nextSid = c3State.nextSid + 1 := by decide

/-- Claim C3 (amended): when the retry budget is exhausted the manager
only emits a notification (with a manual reload action) and a telemetry
event - it has no Failed state and performs no state transition - and
the transport itself stops retrying; but automatic retry from the
environment is not disabled: a page-visibility change while the user is
present and the manager is neither connected nor connecting invokes
connect again. -/
theorem reconnect_failed_notifies_only (s : MState) :
    ((handleReconnectFailed s).isConnected = s.isConnected
     ∧ (handleReconnectFailed s).isConnecting = s.isConnecting
     ∧ (handleReconnectFailed s).reconnectAttempts = s.reconnectAttempts
     ∧ (handleReconnectFailed s).socket = s.socket
     ∧ (handleReconnectFailed s).pendingEmits = s.pendingEmits
     ∧ (handleReconnectFailed s).notifications = s.notifications ++
         [("error", "Failed to reconnect. Please refresh the page.")])
    ∧ (s.user = true → s.token = true → s.isConnected = false → s.isConnecting = false →
        socketConnected s = false →
        (handleVisibility s true).isConnecting = true) := by
  refine ⟨⟨rfl, rfl, rfl, rfl, rfl, rfl⟩, fun hu ht hc hic hsc => ?_⟩
  rw [handleVisibility]
  simp only [hu, hc, hic, Bool.not_false, Bool.and_true, Bool.and_self, Bool.true_and,
             if_true]
  exact connectFn_starts s hu ht hsc hic

def s3wState : MState :=
  { initState with user := true, token := true,
                   reconnectAttempts := reconnectionAttemptsMax }

/-- Witness for the amended C3 at a concrete exhausted state. -/
theorem reconnect_failed_witness :
    (handleReconnectFailed s3wState).notifications = s3wState.notifications ++
      [("error", "Failed to reconnect. Please refresh the page.")]
    ∧ (handleVisibility s3wState true).isConnecting = true :=
  ⟨(reconnect_failed_notifies_only s3wState).1.2.2.2.2.2,
   (reconnect_failed_notifies_only s3wState).2 rfl rfl rfl rfl rfl⟩

/-! ### The one-live-transport invariant (C7)

Every handle ever created is either the current one or sits in
`deadSockets`; every operation that retires a handle marks it torn down
as it moves it there.  The invariant below says the graveyard contains
only torn-down handles; the live count is then bounded by the single
current handle. -/

def deadTornDown (s : MState) : Prop := ∀ k ∈ s.deadSockets, k.tornDown = true

theorem deadTornDown_concat {l : List Socket} {k : Socket}
    (h : ∀ x ∈ l, x.tornDown = true) :
    ∀ x ∈ l ++ [teardownSocket k], x.tornDown = true := by
  intro x hx
  rcases List.mem_append.mp hx with hx | hx
  · exact h x hx
  · rw [List.mem_singleton.mp hx]
    rfl

theorem deadTornDown_of_eq {s t : MState} (he : t.deadSockets = s.deadSockets)
    (h : deadTornDown s) : deadTornDown t := by
  unfold deadTornDown at *
  rw [he]
  exact h

theorem connectFn_dead (s : MState) (h : deadTornDown s) : deadTornDown (connectFn s) := by
  unfold connectFn
  split_ifs <;> try exact h
  rcases hs : s.socket with _ | k
  · exact h
  · exact deadTornDown_concat h

theorem disconnectFn_dead (s : MState) (h : deadTornDown s) :
    deadTornDown (disconnectFn s) := by
  unfold disconnectFn
  rcases hs : s.socket with _ | k
  · exact h
  · exact deadTornDown_concat h

theorem emitQueue_dead (s : MState) (ev : String) (d : Nat) (cb : Option Nat)
    (h : deadTornDown s) : deadTornDown (emitQueue s ev d cb) := by
  have hq : deadTornDown (queuedState s ev d cb) :=
    deadTornDown_of_eq (by cases cb <;> rfl) h
  unfold emitQueue
  split_ifs
  · exact connectFn_dead _ hq
  · exact hq

theorem emitSend_dead (s : MState) (sock : Socket) (ev : String) (d : Nat)
    (cb : Option Nat) (now : Nat) (h : deadTornDown s) :
    deadTornDown (emitSend s sock ev d cb now) := by
  unfold emitSend
  cases hse : sock.sendError
  · exact h
  · cases cb <;> exact h

theorem emitFn_dead (s : MState) (ev : String) (d : Nat) (cb : Option Nat) (now : Nat)
    (h : deadTornDown s) : deadTornDown (emitFn s ev d cb now) := by
  unfold emitFn
  cases hs : s.socket with
  | none => exact emitQueue_dead s ev d cb h
  | some sock =>
    split_ifs
    · exact emitQueue_dead s ev d cb h
    · exact emitSend_dead s sock ev d cb now h

theorem foldl_emit_dead (Q : List PendingEmit) :
    ∀ (s : MState) (now : Nat), deadTornDown s →
      deadTornDown
        (Q.foldl (fun acc pe => emitFn acc pe.event pe.data pe.callback now) s) := by
  induction Q with
  | nil => intro s now h; exact h
  | cons pe Q ih => intro s now h; exact ih _ now (emitFn_dead _ _ _ _ _ h)

theorem processPendingEmits_dead (s : MState) (now : Nat) (h : deadTornDown s) :
    deadTornDown (processPendingEmits s now) := by
  unfold processPendingEmits
  split_ifs
  · exact deadTornDown_of_eq rfl (foldl_emit_dead s.pendingEmits s now h)
  · exact h

theorem handleConnect_dead (s : MState) (now : Nat) (h : deadTornDown s) :
    deadTornDown (handleConnect s now) :=
  processPendingEmits_dead _ now (deadTornDown_of_eq rfl h)

theorem transportConnect_dead (s : MState) (now : Nat) (h : deadTornDown s) :
    deadTornDown (transportConnect s now) := by
  unfold transportConnect
  cases hs : s.socket
  · exact h
  · exact handleConnect_dead _ now (deadTornDown_of_eq rfl h)

theorem handleDisconnect_dead (s : MState) (reason : String) (h : deadTornDown s) :
    deadTornDown (handleDisconnect s reason) := by
  unfold handleDisconnect
  split_ifs <;> exact h

theorem transportDisconnect_dead (s : MState) (reason : String) (h : deadTornDown s) :
    deadTornDown (transportDisconnect s reason) := by
  unfold transportDisconnect
  cases hs : s.socket
  · exact h
  · exact handleDisconnect_dead _ reason (deadTornDown_of_eq rfl h)

theorem transportReconnect_dead (s : MState) (n : Nat) (h : deadTornDown s) :
    deadTornDown (transportReconnect s n) := by
  unfold transportReconnect
  cases hs : s.socket
  · exact h
  · exact deadTornDown_of_eq rfl h

theorem serverAck_dead (s : MState) (i resp now : Nat) (h : deadTornDown s) :
    deadTornDown (serverAck s i resp now) := by
  unfold serverAck
  split
  · exact h
  · split
    · exact h
    · split <;> exact h

theorem onFn_dead (s : MState) (ev : String) (hh : Handler) (h : deadTornDown s) :
    deadTornDown (onFn s ev hh) := by
  unfold onFn
  cases hs : s.socket <;> exact h

theorem offFn_dead (s : MState) (ev : String) (hh : Handler) (h : deadTornDown s) :
    deadTornDown (offFn s ev hh) := by
  unfold offFn
  cases hs : s.socket <;> exact h

theorem deliverFn_dead (s : MState) (ev : String) (arg : Nat) (h : deadTornDown s) :
    deadTornDown (deliverFn s ev arg) := by
  unfold deliverFn
  split
  · exact h
  · split <;> exact h

theorem healthTick_dead (s : MState) (now : Nat) (h : deadTornDown s) :
    deadTornDown (healthTick s now) := by
  unfold healthTick
  split
  · split
    · split
      · exact connectFn_dead _ (disconnectFn_dead s h)
      · exact h
    · exact h
  · exact h

theorem handleVisibility_dead (s : MState) (visible : Bool) (h : deadTornDown s) :
    deadTornDown (handleVisibility s visible) := by
  unfold handleVisibility
  split_ifs
  · exact connectFn_dead s h
  · exact h

theorem authChange_dead (s : MState) (u t : Bool) (h : deadTornDown s) :
    deadTornDown (authChange s u t) := by
  unfold authChange
  split_ifs
  · exact connectFn_dead _ (deadTornDown_of_eq rfl h)
  · exact disconnectFn_dead _ (deadTornDown_of_eq rfl h)

theorem reconnectTimerFire_dead (s : MState) (h : deadTornDown s) :
    deadTornDown (reconnectTimerFire s) := by
  unfold reconnectTimerFire
  split_ifs
  · exact connectFn_dead _ (deadTornDown_of_eq rfl h)
  · exact h

theorem step_dead (s : MState) (ev : Event) (h : deadTornDown s) :
    deadTornDown (step s ev) := by
  cases ev with
  | connectReq => exact connectFn_dead s h
  | disconnectReq => exact disconnectFn_dead s h
  | emitReq e d cb now => exact emitFn_dead s e d cb now h
  | onReq e hh => exact onFn_dead s e hh h
  | offReq e hh => exact offFn_dead s e hh h
  | sockConnected now => exact transportConnect_dead s now h
  | sockDisconnected reason => exact transportDisconnect_dead s reason h
  | sockConnectError msg => exact deadTornDown_of_eq rfl h
  | sockReconnect n => exact transportReconnect_dead s n h
  | sockReconnectAttempt n => exact deadTornDown_of_eq rfl h
  | sockReconnectFailed => exact deadTornDown_of_eq rfl h
  | sockPong now => exact deadTornDown_of_eq rfl h
  | ackEv i resp now => exact serverAck_dead s i resp now h
  | deliverEv e arg => exact deliverFn_dead s e arg h
  | healthTickEv now => exact healthTick_dead s now h
  | visibilityEv visible => exact handleVisibility_dead s visible h
  | authChangeEv u t => exact authChange_dead s u t h
  | reconnectTimerEv => exact reconnectTimerFire_dead s h

theorem run_dead (es : List Event) :
    ∀ s : MState, deadTornDown s → deadTornDown (run s es) := by
  induction es with
  | nil => intro s h; exact h
  | cons e es ih => intro s h; exact ih _ (step_dead s e h)

theorem liveCount_le_one (s : MState) (h : deadTornDown s) : liveCount s ≤ 1 := by
  unfold liveCount allHandles
  rw [List.countP_append]
  have hz : s.deadSockets.countP (fun k => !k.tornDown) = 0 := by
    rw [List.countP_eq_zero]
    intro k hk
    simp [h k hk]
  rw [hz]
  cases hs : s.socket with
  | none => simp
  | some k => cases hk : k.tornDown <;> simp [List.countP_cons, hk]

/-- Claim C7: in every state reachable from the initial state through any
event sequence, at most one live (never torn down) transport handle
exists; and when connect installs a new handle while a prior one is
present, it first tears the prior handle down and moves it out of the
current slot, installing the freshly created handle afterwards. -/
theorem at_most_one_live_transport :
    (∀ es : List Event, liveCount (run initState es) ≤ 1)
    ∧ (∀ (s : MState) (sock : Socket),
        s.user = true → s.token = true → socketConnected s = false →
        s.isConnecting = false → s.socket = some sock →
        (connectFn s).deadSockets = s.deadSockets ++ [teardownSocket sock]
        ∧ (connectFn s).socket = some (freshSocket s)) := by
  constructor
  · intro es
    refine liveCount_le_one _ (run_dead es initState ?_)
    intro k hk
    cases hk
  · intro s sock hu ht hsc hic hsk
    unfold connectFn
    simp [hu, ht, hsc, hic, hsk]

def s7state : MState :=
  { initState with user := true, token := true, socket := some sockIdle }

/-- Witness for C7: a concrete run and a concrete connect over a stale
handle. -/
theorem one_live_transport_witness :
    liveCount (run initState [Event.authChangeEv true true, Event.sockConnected 0]) ≤ 1
    ∧ (connectFn s7state).deadSockets = s7state.deadSockets ++ [teardownSocket sockIdle]
    ∧ (connectFn s7state).socket = some (freshSocket s7state) := by
  obtain ⟨h1, h2⟩ := at_most_one_live_transport
  exact ⟨h1 _, (h2 s7state sockIdle rfl rfl rfl rfl rfl).1,
         (h2 s7state sockIdle rfl rfl rfl rfl rfl).2⟩

end ChangexWS
